import Mathlib

set_option linter.unusedVariables false

/-!
# Verification of the TrendAI demo backend (src/app.py)

A shallow embedding of the request-mediation logic of the FastAPI demo
application: the AI Guard client (`_apply_guardrails`), the File Security
client (`_scan_file_v1fs`), the chat handler (`chat`), the upload handler
(`scan_uploaded_file`), the fixed-sample test handlers (`test_eicar`,
`test_hello`), key masking (`_mask_key`) and configuration update
(`update_config`).

Modelling conventions:

* Outbound HTTP / SDK calls are parameters of the embedded functions: each
  handler takes the network outcome (success payload, HTTP error status, or
  raised exception) as an explicit argument, and the embedding computes what
  the Python handler does with that outcome.
* Python dictionaries coming from downstream JSON are modelled as structures
  with `Option`-typed fields (a `none` field is an absent key); Python
  truthiness of JSON values is modelled by `JVal.truthy`.
* Python's `x or y` on strings (falsy = empty string) is `pyOrStr`.
* Raised exceptions are `Except.error`; an `HTTPException` response is a
  distinguished constructor of the handler's result type.
-/

/-- Python truthiness for the JSON values that appear in scanner results. -/
inductive JVal where
  | null
  | boolean (b : Bool)
  | num (n : Int)
  | str (s : String)
  | arr (xs : List String)
deriving DecidableEq

/-- Python truthiness of a JSON value (`bool(v)`). -/
def JVal.truthy : JVal → Bool
  | .null => false
  | .boolean b => b
  | .num n => n != 0
  | .str s => s != ""
  | .arr xs => !xs.isEmpty

/-- Python `str.lower()`, modelled character-wise over the string's
character list (`Char.toLower` lowers the ASCII range, which covers every
string the claims quantify over concretely). -/
def pyLower (s : String) : String := String.mk (s.data.map Char.toLower)

/-- Python `a or b` for an optional string field: an absent key and the empty
string are both falsy and fall through to the default. -/
def pyOrStr (a : Option String) (b : String) : String :=
  match a with
  | some s => if s = "" then b else s
  | none => b

/-- The JSON body of a successful AI Guard response: the three fields the
code consults (`decision`, `action`, `recommendation`), each possibly
absent. -/
structure GuardBody where
  decision : Option String
  action : Option String
  recommendation : Option String
deriving DecidableEq

/-- Outcome of the HTTP POST made by `_apply_guardrails`: a parsed JSON body,
an `httpx.HTTPStatusError` (non-2xx status), or any other raised exception
(connection error, JSON decode error, ...). -/
inductive GuardResponse where
  | success (body : GuardBody)
  | httpError (status : Nat) (text : String)
  | failure (msg : String)
deriving DecidableEq

/-- Holds exactly on the two failing outcomes of a Guard call. -/
def GuardResponse.isFailure : GuardResponse → Bool
  | .success _ => false
  | .httpError _ _ => true
  | .failure _ => true

/-- The dictionary returned by `_apply_guardrails`, restricted to the keys
the code reads or writes.  `is_malicious` is `none` when the key is absent
(all error-tagged verdicts), mirroring `dict.get("is_malicious", False)`
reads downstream. -/
structure GuardVerdict where
  allowed : Bool
  is_malicious : Option Bool
  is_error : Bool
  reason : Option String
  detail : Option String
  body : Option GuardBody
deriving DecidableEq

/-- Embedding of `guard_result.get("is_malicious", False)` — the effective malicious flag
of a verdict dictionary. -/
def GuardVerdict.effMalicious (v : GuardVerdict) : Bool :=
  v.is_malicious.getD false

/-- Embedding of `_apply_guardrails(text, api_key, guard_url, detailed)`
(src/app.py lines 167-203).  The network outcome of the POST is the explicit
argument `resp`.  The function never raises: every failure path returns an
allowed, error-tagged verdict. -/
def apply_guardrails (text api_key guard_url : String) (detailed : Bool)
    (resp : GuardResponse) : GuardVerdict :=
  if api_key = "" ∨ guard_url = "" then
    { allowed := true, is_malicious := none, is_error := true,
      reason := some "Guard not configured", detail := none, body := none }
  else
    match resp with
    | .success body =>
        let decision :=
          pyLower (pyOrStr body.decision
            (pyOrStr body.action
              (pyOrStr body.recommendation "allow")))
        { allowed := decision ≠ "block", is_malicious := some (decision = "block"),
          is_error := false, reason := none, detail := none, body := some body }
    | .httpError status text =>
        { allowed := true, is_malicious := none, is_error := true,
          reason := some ("Guard API error: " ++ toString status),
          detail := some text, body := none }
    | .failure msg =>
        { allowed := true, is_malicious := none, is_error := true,
          reason := some msg, detail := none, body := none }

/-- Modelled from the spec: the decision field of a Guard response body,
"checked in order: `decision`, then `action`, then `recommendation`,
defaulting to `allow`", compared case-insensitively (a present-but-empty
field yields no value). -/
def specGuardDecision (b : GuardBody) : String :=
  pyLower
    ((((b.decision.bind fun s => if s = "" then none else some s).orElse fun _ =>
       (b.action.bind fun s => if s = "" then none else some s)).orElse fun _ =>
       (b.recommendation.bind fun s => if s = "" then none else some s)).getD "allow")

example :
    (apply_guardrails "hi" "k" "u" false
      (.success ⟨some "Block", none, none⟩)).effMalicious = true := by decide

example :
    (apply_guardrails "hi" "k" "u" false
      (.success ⟨some "review", none, none⟩)).effMalicious = false := by decide

example :
    (apply_guardrails "hi" "k" "u" false
      (.httpError 500 "boom")).allowed = true := by decide

example :
    (apply_guardrails "hi" "" "u" false (.success ⟨some "block", none, none⟩)).is_error
      = true := by decide

/-! ## Configuration store and key masking -/

/-- The in-memory `_config` dictionary (src/app.py lines 27-40), restricted
to its fixed set of keys. -/
structure Config where
  ollama_base_url : String
  ollama_model : String
  v1_guard_api_key : String
  v1_guard_url_base : String
  v1_guard_enabled : Bool
  v1_guard_detailed : Bool
  enforce_side : String
  v1fs_api_key : String
  v1fs_region : String
  v1fs_enabled : Bool
deriving DecidableEq

/-- The `ConfigUpdate` request body (src/app.py lines 43-53); pydantic
guarantees every field is a string / bool (defaults applied upstream). -/
structure ConfigUpdate where
  ollama_base_url : String
  ollama_model : String
  v1_guard_api_key : String
  v1_guard_url_base : String
  v1_guard_enabled : Bool
  v1_guard_detailed : Bool
  enforce_side : String
  v1fs_api_key : String
  v1fs_region : String
  v1fs_enabled : Bool
deriving DecidableEq

/-- Python `s.rstrip("/")`: drop every trailing `/`. -/
def rstripSlash (s : String) : String :=
  String.mk ((s.data.reverse.dropWhile fun c => c = '/').reverse)

/-- Python `s.strip()`: trim surrounding whitespace (character-wise). -/
def pyStrip (s : String) : String :=
  String.mk (((s.data.dropWhile Char.isWhitespace).reverse.dropWhile
    Char.isWhitespace).reverse)

/-- Python `s.endswith(t)`, character-wise. -/
def pyEndsWith (s t : String) : Bool := t.data.isSuffixOf s.data

/-- Embedding of `_mask_key(key)` (src/app.py lines 98-101): `"***"` for falsy or short
keys, else first 4 characters, `'*'` filler, last 2 characters. -/
def mask_key (key : String) : String :=
  if key = "" ∨ key.length < 8 then "***"
  else String.mk (key.data.take 4 ++
        List.replicate (key.length - 6) '*' ++
        key.data.drop (key.length - 2))

/-- The masked key fields of the `get_config` response (src/app.py
lines 111 and 117): `_mask_key(key) if key else ""`. -/
def maskedField (key : String) : String :=
  if key = "" then "" else mask_key key

/-- The secret-related fields of the `/api/config` GET response
(src/app.py lines 104-121); the non-secret fields are echoed verbatim and
elided here. -/
structure ConfigView where
  v1_guard_api_key_set : Bool
  v1_guard_api_key_masked : String
  v1fs_api_key_set : Bool
  v1fs_api_key_masked : String
deriving DecidableEq

/-- Embedding of `get_config()` restricted to the secret-bearing fields. -/
def get_config (cfg : Config) : ConfigView :=
  { v1_guard_api_key_set := cfg.v1_guard_api_key ≠ ""
    v1_guard_api_key_masked := maskedField cfg.v1_guard_api_key
    v1fs_api_key_set := cfg.v1fs_api_key ≠ ""
    v1fs_api_key_masked := maskedField cfg.v1fs_api_key }

/-- The Ollama base-URL normalization of `update_config` (src/app.py
lines 127-129): strip, drop trailing slashes, drop a trailing `/api`. -/
def normalizeBaseUrl (s : String) : String :=
  let base := rstripSlash (pyStrip s)
  if pyEndsWith base "/api" then rstripSlash (String.mk (base.data.take (base.length - 4)))
  else base

/-- Embedding of `update_config(body)` (src/app.py lines 124-142).  Every stored field is
computed from the request body alone; the function returns the new value of
`_config`. -/
def update_config (body : ConfigUpdate) : Config :=
  let enforce0 := pyLower (pyOrStr (some body.enforce_side) "both")
  { ollama_base_url := normalizeBaseUrl body.ollama_base_url
    ollama_model := pyStrip body.ollama_model
    v1_guard_api_key := pyStrip body.v1_guard_api_key
    v1_guard_url_base := rstripSlash (pyStrip (pyOrStr (some body.v1_guard_url_base)
      "https://api.xdr.trendmicro.com/beta/aiSecurity/guard"))
    v1_guard_enabled := body.v1_guard_enabled
    v1_guard_detailed := body.v1_guard_detailed
    enforce_side :=
      if enforce0 = "user" ∨ enforce0 = "assistant" ∨ enforce0 = "both" then enforce0
      else "both"
    v1fs_api_key := pyStrip body.v1fs_api_key
    v1fs_region := pyStrip (pyOrStr (some body.v1fs_region) "us-east-1")
    v1fs_enabled := body.v1fs_enabled }

example : mask_key "secret123456" = "secr******56" := by decide
example : mask_key "abc" = "***" := by decide
example : (update_config
    ⟨"http://x:1/api/", "m", "k", "u", true, false, "USER", "fk", "r", true⟩).enforce_side
    = "user" := by decide
example : (update_config
    ⟨"http://x:1/api/", "m", "k", "u", true, false, "weird", "fk", "r", true⟩).ollama_base_url
    = "http://x:1" := by decide

/-! ## Chat handler -/

/-- A chat message of the request body (`ChatMessage` in src/app.py). -/
structure ChatMessage where
  role : String
  content : String
deriving DecidableEq

/-- A `{"role": ..., "content": ...}` dictionary as it appears in an Ollama
response or in a handler's JSON reply; either key may be absent. -/
structure MsgVal where
  role : Option String
  content : Option String
deriving DecidableEq

/-- The parsed JSON of a successful Ollama `/api/chat` response, restricted
to the `message` key the handler reads. -/
structure OllamaData where
  message : Option MsgVal
deriving DecidableEq

/-- Outcome of the POST to Ollama: parsed JSON, `httpx.ConnectError`,
`httpx.HTTPStatusError`, or a JSON decode failure (`ValueError`). -/
inductive OllamaOutcome where
  | ok (data : OllamaData)
  | connectErr (msg : String)
  | statusErr (status : Nat) (text : String)
  | jsonErr
deriving DecidableEq

/-- Embedding of `assistant_message = (data.get("message") or {}).get("content") or ""`
(src/app.py line 413). -/
def assistantContentOf (data : OllamaData) : String :=
  pyOrStr (data.message.bind fun m => m.content) ""

/-- The fixed blocked-notice for a flagged user prompt (src/app.py
line 394). -/
def blockedPromptNotice : String :=
  "[Blocked by AI Guard] Your prompt was flagged as unsafe."

/-- The fixed blocked-notice for a flagged model reply (src/app.py
line 419). -/
def blockedReplyNotice : String :=
  "[Blocked by AI Guard] The model response was flagged as unsafe."

/-- What the `chat` handler sends back: an `HTTPException` (status and
detail), or a 200 JSON body `{"message": ..., "guard": ...}`. -/
inductive ChatReply where
  | httpExc (status : Nat) (detail : String)
  | ok (message : MsgVal) (guard : Option GuardVerdict)
deriving DecidableEq

/-- One run of the `chat` handler, together with its observable side
effects: how many times Ollama was called and which texts were sent to the
Guard, in order. -/
structure ChatRun where
  reply : ChatReply
  ollamaCalls : Nat
  guardTexts : List String
deriving DecidableEq

/-- Embedding of `last_user = next((m.content for m in reversed(req.messages) if
m.role == "user"), "")` (src/app.py line 381). -/
def lastUserContent (msgs : List ChatMessage) : String :=
  match msgs.reverse.find? fun m => m.role = "user" with
  | some m => m.content
  | none => ""

/-- Python `s[:500]` used when truncating upstream error bodies. -/
def pyTake (s : String) (n : Nat) : String := String.mk (s.data.take n)

/-- The part of the `chat` handler from the Ollama call onwards
(src/app.py lines 398-422): `userVerdict` is the value of `guard_result`
when this point is reached, `userTexts` the Guard calls already made. -/
def chatModelPhase (cfg : Config) (userVerdict : Option GuardVerdict)
    (userTexts : List String) (guardResp : String → GuardResponse)
    (ollama : OllamaOutcome) : ChatRun :=
  match ollama with
  | .connectErr msg =>
      { reply := .httpExc 502 ("Cannot connect to Ollama at " ++
          cfg.ollama_base_url ++ "/api/chat: " ++ msg),
        ollamaCalls := 1, guardTexts := userTexts }
  | .statusErr status text =>
      { reply := .httpExc status ("Ollama error: " ++ pyTake text 500),
        ollamaCalls := 1, guardTexts := userTexts }
  | .jsonErr =>
      { reply := .httpExc 502 "Ollama returned invalid JSON. Check configuration.",
        ollamaCalls := 1, guardTexts := userTexts }
  | .ok data =>
      let assistant_message := assistantContentOf data
      if cfg.v1_guard_enabled = true ∧ cfg.v1_guard_api_key ≠ "" ∧
          (cfg.enforce_side = "assistant" ∨ cfg.enforce_side = "both") ∧
          assistant_message ≠ "" then
        let v := apply_guardrails assistant_message cfg.v1_guard_api_key
          cfg.v1_guard_url_base cfg.v1_guard_detailed (guardResp assistant_message)
        if v.effMalicious then
          { reply := .ok ⟨some "assistant", some blockedReplyNotice⟩ (some v),
            ollamaCalls := 1, guardTexts := userTexts ++ [assistant_message] }
        else
          { reply := .ok (data.message.getD ⟨none, none⟩) (some v),
            ollamaCalls := 1, guardTexts := userTexts ++ [assistant_message] }
      else
        { reply := .ok (data.message.getD ⟨none, none⟩) userVerdict,
          ollamaCalls := 1, guardTexts := userTexts }

/-- Embedding of the `chat` handler (src/app.py lines 371-422).  `guardResp`
gives the Guard service's network outcome for each text it might be sent;
`ollama` is the outcome of the (at most one) Ollama call. -/
def chat (cfg : Config) (msgs : List ChatMessage)
    (guardResp : String → GuardResponse) (ollama : OllamaOutcome) : ChatRun :=
  if cfg.ollama_base_url = "" ∨ cfg.ollama_model = "" then
    { reply := .httpExc 400 "Configure Ollama URL and model in Settings first.",
      ollamaCalls := 0, guardTexts := [] }
  else if msgs.isEmpty then
    { reply := .httpExc 400 "messages is required",
      ollamaCalls := 0, guardTexts := [] }
  else
    let last_user := lastUserContent msgs
    if cfg.v1_guard_enabled = true ∧ cfg.v1_guard_api_key ≠ "" ∧
        (cfg.enforce_side = "user" ∨ cfg.enforce_side = "both") ∧
        last_user ≠ "" then
      let v := apply_guardrails last_user cfg.v1_guard_api_key
        cfg.v1_guard_url_base cfg.v1_guard_detailed (guardResp last_user)
      if v.effMalicious then
        { reply := .ok ⟨some "assistant", some blockedPromptNotice⟩ (some v),
          ollamaCalls := 0, guardTexts := [last_user] }
      else
        chatModelPhase cfg (some v) [last_user] guardResp ollama
    else
      chatModelPhase cfg none [] guardResp ollama

example :
    (chat ⟨"u", "m", "k", "g", true, false, "both", "", "", true⟩
      [⟨"user", "evil"⟩]
      (fun _ => .success ⟨some "block", none, none⟩)
      (.ok ⟨some ⟨some "assistant", some "hello"⟩⟩)).ollamaCalls = 0 := by decide

example :
    (chat ⟨"u", "m", "k", "g", true, false, "both", "", "", true⟩
      [⟨"user", "hi"⟩]
      (fun _ => .success ⟨some "allow", none, none⟩)
      (.ok ⟨some ⟨some "assistant", some "hello"⟩⟩)).reply
      = .ok ⟨some "assistant", some "hello"⟩
          (some (apply_guardrails "hello" "k" "g" false
            (.success ⟨some "allow", none, none⟩))) := by decide

/-! ## File scanner and upload / fixed-sample handlers -/

/-- The JSON dictionary produced by `_scan_file_v1fs`, restricted to the
keys the handlers consult; `extra` records whether the dictionary carries
any further keys (it enters only Python dict truthiness). -/
structure V1fsResult where
  scanResult : Option JVal
  foundMalwares : Option JVal
  error : Option String
  extra : Bool
deriving DecidableEq

/-- Python truthiness of a scanner-result dictionary (non-empty dict). -/
def V1fsResult.dictTruthy (r : V1fsResult) : Bool :=
  r.scanResult.isSome || r.foundMalwares.isSome || r.error.isSome || r.extra

/-- Outcome of the V1FS SDK session (`init_by_region` / `scan_file` /
`quit` / `json.loads`): a parsed result dictionary, or any raised
exception. -/
inductive ScanOutcome where
  | ok (r : V1fsResult)
  | exc (msg : String)
deriving DecidableEq

/-- Embedding of `_scan_file_v1fs(file_path, api_key, region)` (src/app.py
lines 206-221).  Never raises: every failure is an error dictionary. -/
def scan_file_v1fs (file_path api_key region : String) (sdkAvailable : Bool)
    (outcome : ScanOutcome) : V1fsResult :=
  if ¬ sdkAvailable then
    { scanResult := none, foundMalwares := none,
      error := some "V1FS SDK not installed", extra := false }
  else if api_key = "" ∨ region = "" then
    { scanResult := none, foundMalwares := none,
      error := some "V1FS not configured (missing API key or region)", extra := false }
  else
    match outcome with
    | .ok r => r
    | .exc msg =>
        { scanResult := none, foundMalwares := none,
          error := some ("V1FS scan failed: " ++ msg), extra := false }

/-- The `malicious` derivation of the upload handler (src/app.py
lines 240-243): `scanResult` present and truthy, `elif` `foundMalwares`
present and truthy. -/
def uploadMaliciousFrom (r : V1fsResult) : Bool :=
  if r.scanResult.isSome && (r.scanResult.getD .null).truthy then true
  else if r.foundMalwares.isSome && (r.foundMalwares.getD .null).truthy then true
  else false

/-- The `malicious` derivation of the fixed-sample handlers (src/app.py
lines 267 and 286): result truthy and `scanResult` present and truthy;
`foundMalwares` is not consulted. -/
def fixedSampleMalicious (r? : Option V1fsResult) : Bool :=
  match r? with
  | none => false
  | some r => r.dictTruthy && (r.scanResult.isSome && (r.scanResult.getD .null).truthy)

/-- Modelled from the spec: "a scan-result field present and truthy, OR a
found-malware list present and non-empty, both signal malicious=true". -/
def specScanMaliciousRule (r : V1fsResult) : Bool :=
  (r.scanResult.isSome && (r.scanResult.getD .null).truthy) ||
  (r.foundMalwares.isSome && (r.foundMalwares.getD .null).truthy)

/-- The JSON body returned by the upload and fixed-sample handlers. -/
structure ScanResponse where
  filename : String
  v1fs_result : Option V1fsResult
  guard_result : Option GuardVerdict
  malicious : Bool
deriving DecidableEq

deriving instance DecidableEq for Except

/-- Embedding of `scan_uploaded_file` (src/app.py lines 224-253), with the
filesystem of temporary paths passed explicitly.  `tempfile` creates
`tmpPath` first; `readRes` and `writeRes` are the outcomes of
`await file.read()` and `tmp.write(content)`, which run inside the `with`
block but before the `try`; `bodyExc` is a possible exception raised inside
the `try` block, whose `finally` always unlinks `tmpPath`.  The result is
the handler's outcome (a raised exception propagates as `Except.error`)
paired with the final filesystem. -/
def scan_uploaded_file (filename tmpPath : String) (fs0 : List String)
    (readRes writeRes : Except String Unit) (bodyExc : Option String)
    (v1fsEnabled : Bool) (api_key region : String) (sdkAvailable : Bool)
    (outcome : ScanOutcome) : Except String ScanResponse × List String :=
  let fs1 := fs0 ++ [tmpPath]
  match readRes with
  | .error e => (.error e, fs1)
  | .ok _ =>
    match writeRes with
    | .error e => (.error e, fs1)
    | .ok _ =>
      let fs2 := fs1.filter fun p => p ≠ tmpPath
      match bodyExc with
      | some e => (.error e, fs2)
      | none =>
        if v1fsEnabled then
          let r := scan_file_v1fs tmpPath api_key region sdkAvailable outcome
          (.ok { filename := filename, v1fs_result := some r, guard_result := none,
                 malicious := uploadMaliciousFrom r }, fs2)
        else
          (.ok { filename := filename, v1fs_result := none, guard_result := none,
                 malicious := false }, fs2)

/-- Embedding of `test_eicar` (src/app.py lines 256-272), restricted to the
response body (the temporary-file bookkeeping mirrors the upload handler). -/
def test_eicar (v1fsEnabled : Bool) (api_key region : String)
    (sdkAvailable : Bool) (outcome : ScanOutcome) : ScanResponse :=
  let r? := if v1fsEnabled then
    some (scan_file_v1fs "eicar.txt" api_key region sdkAvailable outcome) else none
  { filename := "eicar.txt", v1fs_result := r?, guard_result := none,
    malicious := fixedSampleMalicious r? }

/-- Embedding of `test_hello` (src/app.py lines 275-291), restricted to the
response body. -/
def test_hello (v1fsEnabled : Bool) (api_key region : String)
    (sdkAvailable : Bool) (outcome : ScanOutcome) : ScanResponse :=
  let r? := if v1fsEnabled then
    some (scan_file_v1fs "hello.txt" api_key region sdkAvailable outcome) else none
  { filename := "hello.txt", v1fs_result := r?, guard_result := none,
    malicious := fixedSampleMalicious r? }

example :
    (scan_uploaded_file "f" "/tmp/t" [] (.ok ()) (.ok ()) none true "k" "r" true
      (.ok ⟨none, some (.arr ["Eicar_test_file"]), none, false⟩)).1
      = .ok ⟨"f", some ⟨none, some (.arr ["Eicar_test_file"]), none, false⟩, none, true⟩ := by
  decide

example :
    (test_eicar true "k" "r" true
      (.ok ⟨none, some (.arr ["Eicar_test_file"]), none, false⟩)).malicious = false := by
  decide

/-! ## Helper lemmas -/

/-- Every error-tagged verdict produced by `_apply_guardrails` lacks the
`is_malicious` key, so its effective malicious flag is `false`. -/
theorem apply_guardrails_error_not_malicious (text api_key guard_url : String)
    (detailed : Bool) (resp : GuardResponse)
    (h : (apply_guardrails text api_key guard_url detailed resp).is_error = true) :
    (apply_guardrails text api_key guard_url detailed resp).effMalicious = false := by
  unfold apply_guardrails at h ⊢
  by_cases hk : api_key = "" ∨ guard_url = ""
  · simp [hk, GuardVerdict.effMalicious]
  · simp only [if_neg hk] at h ⊢
    cases resp with
    | success body => simp at h
    | httpError s t => simp [GuardVerdict.effMalicious]
    | failure m => simp [GuardVerdict.effMalicious]

/-- The model phase of the chat handler always performs exactly one Ollama
call. -/
theorem chatModelPhase_calls (cfg : Config) (uv : Option GuardVerdict)
    (uts : List String) (gr : String → GuardResponse) (o : OllamaOutcome) :
    (chatModelPhase cfg uv uts gr o).ollamaCalls = 1 := by
  unfold chatModelPhase
  cases o with
  | connectErr m => rfl
  | statusErr s t => rfl
  | jsonErr => rfl
  | ok data =>
    dsimp only
    split
    · split <;> rfl
    · rfl

/-- The model phase only appends to the list of texts sent to the Guard. -/
theorem chatModelPhase_guardTexts (cfg : Config) (uv : Option GuardVerdict)
    (uts : List String) (gr : String → GuardResponse) (o : OllamaOutcome) :
    ∃ rest, (chatModelPhase cfg uv uts gr o).guardTexts = uts ++ rest := by
  unfold chatModelPhase
  cases o with
  | connectErr m => exact ⟨[], by simp⟩
  | statusErr s t => exact ⟨[], by simp⟩
  | jsonErr => exact ⟨[], by simp⟩
  | ok data =>
    simp only
    split
    · split
      · exact ⟨_, rfl⟩
      · exact ⟨_, rfl⟩
    · exact ⟨[], by simp⟩

/-- The code's decision chain equals the spec's field-priority reading. -/
theorem codeDecision_eq_spec (b : GuardBody) :
    pyLower (pyOrStr b.decision (pyOrStr b.action (pyOrStr b.recommendation "allow")))
      = specGuardDecision b := by
  rcases b with ⟨d, a, r⟩
  cases d <;> cases a <;> cases r <;>
    simp only [pyOrStr, specGuardDecision, Option.bind, Option.orElse, Option.getD] <;>
    split_ifs <;> simp_all

/-- Evaluation of `_apply_guardrails` on a successful response, in terms of the
spec's decision reading. -/
theorem apply_guardrails_success (text api_key guard_url : String)
    (detailed : Bool) (body : GuardBody) (hk : api_key ≠ "") (hu : guard_url ≠ "") :
    apply_guardrails text api_key guard_url detailed (.success body) =
      { allowed := specGuardDecision body ≠ "block",
        is_malicious := some (specGuardDecision body = "block"),
        is_error := false, reason := none, detail := none, body := some body } := by
  unfold apply_guardrails
  rw [if_neg (by simp [hk, hu])]
  simp only [codeDecision_eq_spec]

/-! ## Claim theorems -/

/-- C2: every failing Content Guard invocation — missing key or URL,
non-success upstream HTTP status, or any exception during the call —
returns an allowed verdict tagged as an error, carrying a failure reason,
whose effective malicious flag is false; a Guard failure never blocks. -/
theorem guard_failure_fails_open (text api_key guard_url : String)
    (detailed : Bool) (resp : GuardResponse)
    (h : api_key = "" ∨ guard_url = "" ∨ resp.isFailure = true) :
    (apply_guardrails text api_key guard_url detailed resp).allowed = true ∧
    (apply_guardrails text api_key guard_url detailed resp).is_error = true ∧
    (apply_guardrails text api_key guard_url detailed resp).reason.isSome = true ∧
    (apply_guardrails text api_key guard_url detailed resp).effMalicious = false := by
  unfold apply_guardrails
  by_cases hk : api_key = "" ∨ guard_url = ""
  · simp [hk, GuardVerdict.effMalicious]
  · simp only [if_neg hk]
    rcases h with h | h | h
    · exact absurd (Or.inl h) hk
    · exact absurd (Or.inr h) hk
    · cases resp with
      | success body => simp [GuardResponse.isFailure] at h
      | httpError s t => simp [GuardVerdict.effMalicious]
      | failure m => simp [GuardVerdict.effMalicious]

/-- Witness for C2 at a concrete failing call (HTTP 500 with key and URL
configured). -/
theorem guard_failure_fails_open_wit :
    (apply_guardrails "hi" "k" "u" false (.httpError 500 "boom")).allowed = true ∧
    (apply_guardrails "hi" "k" "u" false (.httpError 500 "boom")).is_error = true ∧
    (apply_guardrails "hi" "k" "u" false (.httpError 500 "boom")).reason.isSome = true ∧
    (apply_guardrails "hi" "k" "u" false (.httpError 500 "boom")).effMalicious = false :=
  guard_failure_fails_open "hi" "k" "u" false (.httpError 500 "boom") (by decide)

/-- C3: on a successful Guard response the decision is read from
`decision`, then `action`, then `recommendation`, defaulting to allow,
case-insensitively, and `is_malicious` is true exactly when that decision
lowercased equals `"block"`; everything else (including `review`) is
non-blocking. -/
theorem guard_decision_matches_spec (text api_key guard_url : String)
    (detailed : Bool) (body : GuardBody)
    (hk : api_key ≠ "") (hu : guard_url ≠ "") :
    ((apply_guardrails text api_key guard_url detailed (.success body)).effMalicious = true
       ↔ specGuardDecision body = "block") ∧
    ((apply_guardrails text api_key guard_url detailed (.success body)).allowed = true
       ↔ specGuardDecision body ≠ "block") ∧
    (apply_guardrails text api_key guard_url detailed (.success body)).is_malicious
       = some ((apply_guardrails text api_key guard_url detailed (.success body)).effMalicious) := by
  rw [apply_guardrails_success text api_key guard_url detailed body hk hu]
  refine ⟨?_, ?_, ?_⟩ <;>
    by_cases hb : specGuardDecision body = "block" <;>
    simp [hb, GuardVerdict.effMalicious]

/-- C7 counterexample: for the stored Guard key `"abcd**ef"` (length 8,
whose middle characters already equal the filler) the configuration read
returns the key in full — the masked form does not differ from the
original even though its length is at least 8. -/
theorem config_read_masks_secrets_cex :
    (get_config ⟨"", "", "abcd**ef", "g", true, false, "both", "", "", true⟩).v1_guard_api_key_masked
      = "abcd**ef" ∧
    8 ≤ ("abcd**ef" : String).length := by decide

/-- C7 (amended): the configuration read renders each stored secret through
the masking function; keys shorter than 8 characters become the opaque
placeholder `"***"`, keys of length at least 8 become first 4 characters,
`'*'` filler, last 2 characters, and the masked form differs from the
original whenever the original length is at least 8 and some character
outside the first 4 and last 2 is not the filler `'*'`. -/
theorem config_read_masks_secrets (cfg : Config) :
    (get_config cfg).v1_guard_api_key_masked = maskedField cfg.v1_guard_api_key ∧
    (get_config cfg).v1fs_api_key_masked = maskedField cfg.v1fs_api_key ∧
    (∀ key : String, key ≠ "" → key.length < 8 → maskedField key = "***") ∧
    (∀ key : String, 8 ≤ key.length →
      maskedField key = String.mk (key.data.take 4 ++
        List.replicate (key.length - 6) '*' ++ key.data.drop (key.length - 2)) ∧
      ((∃ c ∈ (key.data.drop 4).take (key.length - 6), c ≠ '*') →
        maskedField key ≠ key)) := by
  refine ⟨rfl, rfl, ?_, ?_⟩
  · intro key hne hlt
    unfold maskedField mask_key
    rw [if_neg hne, if_pos (Or.inr hlt)]
  · intro key h8
    have hne : key ≠ "" := by
      intro he
      subst he
      simp [String.length] at h8
    have hcond : ¬(key = "" ∨ key.length < 8) := by
      push_neg
      exact ⟨hne, by omega⟩
    have hmask : maskedField key = String.mk (key.data.take 4 ++
        List.replicate (key.length - 6) '*' ++ key.data.drop (key.length - 2)) := by
      unfold maskedField mask_key
      rw [if_neg hne, if_neg hcond]
    refine ⟨hmask, ?_⟩
    rintro ⟨c, hc, hcne⟩ heq
    apply hcne
    have hdata : key.data.take 4 ++
        List.replicate (key.length - 6) '*' ++ key.data.drop (key.length - 2)
        = key.data := congrArg String.data (hmask ▸ heq)
    have hlen : key.data.length = key.length := rfl
    have h4 : (key.data.take 4).length = 4 := by
      rw [List.length_take, hlen]
      omega
    have hrep : (List.replicate (key.length - 6) '*').length = key.length - 6 :=
      List.length_replicate _ _
    have hmid : (key.data.drop 4).take (key.length - 6)
        = List.replicate (key.length - 6) '*' := by
      conv_lhs => rw [← hdata]
      rw [List.append_assoc, List.drop_left' h4, List.take_left' hrep]
    rw [hmid] at hc
    exact List.eq_of_mem_replicate hc

/-- Witness for C7: a short key masks to the placeholder and a long key
with a non-filler middle character is not echoed back verbatim. -/
theorem config_read_masks_secrets_wit :
    maskedField "sh" = "***" ∧ maskedField "secret123456" ≠ "secret123456" :=
  ⟨(config_read_masks_secrets ⟨"", "", "", "", true, true, "both", "", "", true⟩).2.2.1
      "sh" (by decide) (by decide),
   ((config_read_masks_secrets ⟨"", "", "", "", true, true, "both", "", "", true⟩).2.2.2
      "secret123456" (by decide)).2 (by decide)⟩

/-- C8 counterexample: the input `"USER"` lies outside the literal set
`{"user","assistant","both"}` yet the stored value is `"user"`, not
`"both"` — the update lowercases before validating. -/
theorem enforce_side_normalized_cex :
    (update_config ⟨"", "", "", "u", true, false, "USER", "", "", true⟩).enforce_side
      = "user" ∧
    ¬("USER" = "user" ∨ "USER" = "assistant" ∨ "USER" = "both") ∧
    (update_config ⟨"", "", "", "u", true, false, "USER", "", "", true⟩).enforce_side
      ≠ "both" := by decide

/-- C8 (amended): after any configuration update the stored enforcement
side is one of `user`, `assistant`, `both`; whenever the input's lowercased
value (empty input reading as `both`) lies outside that set, the stored
value is `both`. -/
theorem enforce_side_normalized (body : ConfigUpdate) :
    ((update_config body).enforce_side = "user" ∨
     (update_config body).enforce_side = "assistant" ∨
     (update_config body).enforce_side = "both") ∧
    (¬(pyLower (pyOrStr (some body.enforce_side) "both") = "user" ∨
       pyLower (pyOrStr (some body.enforce_side) "both") = "assistant" ∨
       pyLower (pyOrStr (some body.enforce_side) "both") = "both") →
      (update_config body).enforce_side = "both") := by
  dsimp only [update_config]
  split
  · rename_i h
    exact ⟨h, fun hcontra => absurd h hcontra⟩
  · exact ⟨Or.inr (Or.inr rfl), fun _ => rfl⟩

/-- Witness for C8 at the unrecognized input `"invalid"`. -/
theorem enforce_side_normalized_wit :
    ((update_config ⟨"", "", "", "u", true, false, "invalid", "", "", true⟩).enforce_side = "user" ∨
     (update_config ⟨"", "", "", "u", true, false, "invalid", "", "", true⟩).enforce_side = "assistant" ∨
     (update_config ⟨"", "", "", "u", true, false, "invalid", "", "", true⟩).enforce_side = "both") ∧
    (update_config ⟨"", "", "", "u", true, false, "invalid", "", "", true⟩).enforce_side = "both" :=
  ⟨(enforce_side_normalized ⟨"", "", "", "u", true, false, "invalid", "", "", true⟩).1,
   (enforce_side_normalized ⟨"", "", "", "u", true, false, "invalid", "", "", true⟩).2 (by decide)⟩

/-- C10: for keys of length at least 8 the masked form has exactly the
original's length (4 + (length - 6) + 2), so the configuration read reveals
the exact length of such a key. -/
theorem mask_preserves_length (key : String) (h : 8 ≤ key.length) :
    (mask_key key).length = key.length ∧ (maskedField key).length = key.length := by
  have hne : key ≠ "" := by
    intro he
    subst he
    simp [String.length] at h
  have hcond : ¬(key = "" ∨ key.length < 8) := by
    push_neg
    exact ⟨hne, by omega⟩
  have hmain : (mask_key key).length = key.length := by
    unfold mask_key
    rw [if_neg hcond]
    show (key.data.take 4 ++ List.replicate (key.length - 6) '*' ++
      key.data.drop (key.length - 2)).length = key.length
    have hlen : key.data.length = key.length := rfl
    rw [List.length_append, List.length_append, List.length_take,
      List.length_replicate, List.length_drop, hlen]
    omega
  refine ⟨hmain, ?_⟩
  unfold maskedField
  rw [if_neg hne]
  exact hmain

/-- Witness for C10 at a 12-character key. -/
theorem mask_preserves_length_wit :
    (mask_key "secret123456").length = ("secret123456" : String).length ∧
    (maskedField "secret123456").length = ("secret123456" : String).length :=
  mask_preserves_length "secret123456" (by decide)

/-- C1 counterexample: with the Guard enabled, keyed, enforcement `user`,
and a Guard that judges the most recent user message (here the empty
string) malicious, the handler still calls Ollama once and returns the
model reply with no verdict attached — the code skips the user-side check
when the most recent user message is empty. -/
theorem chat_user_malicious_short_circuit_cex :
    (apply_guardrails (lastUserContent [⟨"user", ""⟩]) "k" "g" false
      (GuardResponse.success ⟨some "block", none, none⟩)).effMalicious = true ∧
    (chat ⟨"http://o", "m", "k", "g", true, false, "user", "", "", true⟩
      [⟨"user", ""⟩] (fun _ => .success ⟨some "block", none, none⟩)
      (.ok ⟨some ⟨some "assistant", some "model reply"⟩⟩)).ollamaCalls = 1 ∧
    (chat ⟨"http://o", "m", "k", "g", true, false, "user", "", "", true⟩
      [⟨"user", ""⟩] (fun _ => .success ⟨some "block", none, none⟩)
      (.ok ⟨some ⟨some "assistant", some "model reply"⟩⟩)).reply
      = .ok ⟨some "assistant", some "model reply"⟩ none := by decide

/-- C1 (amended): for a validated chat request with the Guard enabled and
keyed, enforcement side including `user`, and a non-empty most recent user
message, a malicious verdict on that message short-circuits: the handler
returns the fixed blocked-notice with that verdict attached and Ollama is
never called; a merely error-tagged verdict instead leads to exactly one
Ollama call. -/
theorem chat_user_malicious_short_circuit (cfg : Config) (msgs : List ChatMessage)
    (guardResp : String → GuardResponse) (ollama : OllamaOutcome)
    (hbase : cfg.ollama_base_url ≠ "") (hmodel : cfg.ollama_model ≠ "")
    (hmsgs : msgs ≠ [])
    (hen : cfg.v1_guard_enabled = true) (hkey : cfg.v1_guard_api_key ≠ "")
    (hside : cfg.enforce_side = "user" ∨ cfg.enforce_side = "both")
    (hlast : lastUserContent msgs ≠ "") :
    ((apply_guardrails (lastUserContent msgs) cfg.v1_guard_api_key
        cfg.v1_guard_url_base cfg.v1_guard_detailed
        (guardResp (lastUserContent msgs))).effMalicious = true →
      (chat cfg msgs guardResp ollama).reply =
        .ok ⟨some "assistant", some blockedPromptNotice⟩
          (some (apply_guardrails (lastUserContent msgs) cfg.v1_guard_api_key
            cfg.v1_guard_url_base cfg.v1_guard_detailed
            (guardResp (lastUserContent msgs)))) ∧
      (chat cfg msgs guardResp ollama).ollamaCalls = 0) ∧
    ((apply_guardrails (lastUserContent msgs) cfg.v1_guard_api_key
        cfg.v1_guard_url_base cfg.v1_guard_detailed
        (guardResp (lastUserContent msgs))).is_error = true →
      (chat cfg msgs guardResp ollama).ollamaCalls = 1) := by
  have hempty : msgs.isEmpty = false := by
    cases msgs with
    | nil => exact absurd rfl hmsgs
    | cons a l => rfl
  constructor
  · intro hm
    refine ⟨?_, ?_⟩ <;> simp [chat, hbase, hmodel, hempty, hen, hkey, hside, hlast, hm]
  · intro herr
    have hm := apply_guardrails_error_not_malicious _ _ _ _ _ herr
    simp [chat, hbase, hmodel, hempty, hen, hkey, hside, hlast, hm, chatModelPhase_calls]

/-- Witness for C1 at a concrete blocked prompt. -/
theorem chat_user_malicious_short_circuit_wit :
    (chat ⟨"http://o", "m", "k", "g", true, false, "both", "", "", true⟩
      [⟨"user", "evil"⟩] (fun _ => .success ⟨some "block", none, none⟩)
      (.ok ⟨some ⟨some "assistant", some "hi"⟩⟩)).reply =
      .ok ⟨some "assistant", some blockedPromptNotice⟩
        (some (apply_guardrails (lastUserContent [⟨"user", "evil"⟩]) "k" "g" false
          (.success ⟨some "block", none, none⟩))) ∧
    (chat ⟨"http://o", "m", "k", "g", true, false, "both", "", "", true⟩
      [⟨"user", "evil"⟩] (fun _ => .success ⟨some "block", none, none⟩)
      (.ok ⟨some ⟨some "assistant", some "hi"⟩⟩)).ollamaCalls = 0 :=
  (chat_user_malicious_short_circuit
    ⟨"http://o", "m", "k", "g", true, false, "both", "", "", true⟩
    [⟨"user", "evil"⟩] (fun _ => .success ⟨some "block", none, none⟩)
    (.ok ⟨some ⟨some "assistant", some "hi"⟩⟩)
    (by decide) (by decide) (by decide) rfl (by decide) (Or.inr rfl) (by decide)).1
    (by decide)

/-- C9 counterexample: Guard enabled, keyed, enforcement `both`, and the
conversation's most recent user-role message has empty content; the claim
says the Guard is invoked on that (empty) message, but the handler performs
no Guard call at all. -/
theorem chat_guard_user_invocation_cex :
    lastUserContent [⟨"user", ""⟩] = "" ∧
    (chat ⟨"http://o", "m", "k", "g", true, false, "both", "", "", true⟩
      [⟨"user", ""⟩] (fun _ => .success ⟨some "block", none, none⟩)
      (.ok ⟨some ⟨some "assistant", some ""⟩⟩)).guardTexts = [] := by decide

/-- C9 (amended): for a validated chat request with the Guard enabled and
keyed and enforcement side including `user`, whenever the most recent
user-role message (found by scanning the history from the end, empty string
if none) is non-empty, the first Guard invocation of the request is on
exactly that message. -/
theorem chat_guard_user_invocation (cfg : Config) (msgs : List ChatMessage)
    (guardResp : String → GuardResponse) (ollama : OllamaOutcome)
    (hbase : cfg.ollama_base_url ≠ "") (hmodel : cfg.ollama_model ≠ "")
    (hmsgs : msgs ≠ [])
    (hen : cfg.v1_guard_enabled = true) (hkey : cfg.v1_guard_api_key ≠ "")
    (hside : cfg.enforce_side = "user" ∨ cfg.enforce_side = "both")
    (hlast : lastUserContent msgs ≠ "") :
    (chat cfg msgs guardResp ollama).guardTexts.head? = some (lastUserContent msgs) := by
  have hempty : msgs.isEmpty = false := by
    cases msgs with
    | nil => exact absurd rfl hmsgs
    | cons a l => rfl
  by_cases hm : (apply_guardrails (lastUserContent msgs) cfg.v1_guard_api_key
      cfg.v1_guard_url_base cfg.v1_guard_detailed
      (guardResp (lastUserContent msgs))).effMalicious = true
  · simp [chat, hbase, hmodel, hempty, hen, hkey, hside, hlast, hm]
  · have hm' : (apply_guardrails (lastUserContent msgs) cfg.v1_guard_api_key
        cfg.v1_guard_url_base cfg.v1_guard_detailed
        (guardResp (lastUserContent msgs))).effMalicious = false :=
      Bool.not_eq_true _ ▸ (Bool.eq_false_iff.mpr hm)
    obtain ⟨rest, hrest⟩ := chatModelPhase_guardTexts cfg
      (some (apply_guardrails (lastUserContent msgs) cfg.v1_guard_api_key
        cfg.v1_guard_url_base cfg.v1_guard_detailed
        (guardResp (lastUserContent msgs))))
      [lastUserContent msgs] guardResp ollama
    simp [chat, hbase, hmodel, hempty, hen, hkey, hside, hlast, hm', hrest]

/-- Witness for C9 at a concrete request. -/
theorem chat_guard_user_invocation_wit :
    (chat ⟨"http://o", "m", "k", "g", true, false, "both", "", "", true⟩
      [⟨"user", "hello"⟩] (fun _ => .success ⟨some "allow", none, none⟩)
      (.ok ⟨some ⟨some "assistant", some "hi"⟩⟩)).guardTexts.head?
      = some (lastUserContent [⟨"user", "hello"⟩]) :=
  chat_guard_user_invocation
    ⟨"http://o", "m", "k", "g", true, false, "both", "", "", true⟩
    [⟨"user", "hello"⟩] (fun _ => .success ⟨some "allow", none, none⟩)
    (.ok ⟨some ⟨some "assistant", some "hi"⟩⟩)
    (by decide) (by decide) (by decide) rfl (by decide) (Or.inr rfl) (by decide)

/-- The model phase replaces a malicious assistant reply with the fixed
blocked-notice and attaches the assistant-side verdict, for any prior
user-side verdict. -/
theorem chatModelPhase_assistant_block (cfg : Config) (uv : Option GuardVerdict)
    (uts : List String) (gr : String → GuardResponse) (data : OllamaData)
    (hen : cfg.v1_guard_enabled = true) (hkey : cfg.v1_guard_api_key ≠ "")
    (hside : cfg.enforce_side = "assistant" ∨ cfg.enforce_side = "both")
    (hmsg : assistantContentOf data ≠ "")
    (hmal : (apply_guardrails (assistantContentOf data) cfg.v1_guard_api_key
      cfg.v1_guard_url_base cfg.v1_guard_detailed
      (gr (assistantContentOf data))).effMalicious = true) :
    (chatModelPhase cfg uv uts gr (.ok data)).reply =
      .ok ⟨some "assistant", some blockedReplyNotice⟩
        (some (apply_guardrails (assistantContentOf data) cfg.v1_guard_api_key
          cfg.v1_guard_url_base cfg.v1_guard_detailed
          (gr (assistantContentOf data)))) := by
  simp [chatModelPhase, hen, hkey, hside, hmsg, hmal]

/-- C4: for a validated chat request with the Guard enabled and keyed,
enforcement side including `assistant`, a request that reaches the model
(its user-side check, if any, did not block), a non-empty model reply, and
a malicious verdict on that reply: the returned text is the fixed
blocked-notice, Ollama was called exactly once, and the attached verdict is
the assistant-side one (superseding any user-side verdict). -/
theorem chat_assistant_malicious_replaced (cfg : Config) (msgs : List ChatMessage)
    (guardResp : String → GuardResponse) (data : OllamaData)
    (hbase : cfg.ollama_base_url ≠ "") (hmodel : cfg.ollama_model ≠ "")
    (hmsgs : msgs ≠ [])
    (hen : cfg.v1_guard_enabled = true) (hkey : cfg.v1_guard_api_key ≠ "")
    (hside : cfg.enforce_side = "assistant" ∨ cfg.enforce_side = "both")
    (hreach : cfg.enforce_side = "assistant" ∨ lastUserContent msgs = "" ∨
      (apply_guardrails (lastUserContent msgs) cfg.v1_guard_api_key
        cfg.v1_guard_url_base cfg.v1_guard_detailed
        (guardResp (lastUserContent msgs))).effMalicious = false)
    (hmsg : assistantContentOf data ≠ "")
    (hmal : (apply_guardrails (assistantContentOf data) cfg.v1_guard_api_key
      cfg.v1_guard_url_base cfg.v1_guard_detailed
      (guardResp (assistantContentOf data))).effMalicious = true) :
    (chat cfg msgs guardResp (.ok data)).reply =
      .ok ⟨some "assistant", some blockedReplyNotice⟩
        (some (apply_guardrails (assistantContentOf data) cfg.v1_guard_api_key
          cfg.v1_guard_url_base cfg.v1_guard_detailed
          (guardResp (assistantContentOf data)))) ∧
    (chat cfg msgs guardResp (.ok data)).ollamaCalls = 1 := by
  have hempty : msgs.isEmpty = false := by
    cases msgs with
    | nil => exact absurd rfl hmsgs
    | cons a l => rfl
  by_cases hu : cfg.v1_guard_enabled = true ∧ cfg.v1_guard_api_key ≠ "" ∧
      (cfg.enforce_side = "user" ∨ cfg.enforce_side = "both") ∧
      lastUserContent msgs ≠ ""
  · have huv : (apply_guardrails (lastUserContent msgs) cfg.v1_guard_api_key
        cfg.v1_guard_url_base cfg.v1_guard_detailed
        (guardResp (lastUserContent msgs))).effMalicious = false := by
      rcases hreach with h | h | h
      · rcases hu.2.2.1 with h' | h' <;> rw [h] at h' <;> simp at h'
      · exact absurd h hu.2.2.2
      · exact h
    have h1 := chatModelPhase_assistant_block cfg
      (some (apply_guardrails (lastUserContent msgs) cfg.v1_guard_api_key
        cfg.v1_guard_url_base cfg.v1_guard_detailed
        (guardResp (lastUserContent msgs))))
      [lastUserContent msgs] guardResp data hen hkey hside hmsg hmal
    have h2 := chatModelPhase_calls cfg
      (some (apply_guardrails (lastUserContent msgs) cfg.v1_guard_api_key
        cfg.v1_guard_url_base cfg.v1_guard_detailed
        (guardResp (lastUserContent msgs))))
      [lastUserContent msgs] guardResp (.ok data)
    refine ⟨?_, ?_⟩ <;>
      simp [chat, hbase, hmodel, hempty, hu, huv, h1, h2]
  · have h1 := chatModelPhase_assistant_block cfg none [] guardResp data
      hen hkey hside hmsg hmal
    have h2 := chatModelPhase_calls cfg none [] guardResp (.ok data)
    refine ⟨?_, ?_⟩ <;>
      simp [chat, hbase, hmodel, hempty, hu, h1, h2]

/-- Witness for C4: a benign prompt followed by a flagged model reply. -/
theorem chat_assistant_malicious_replaced_wit :
    (chat ⟨"http://o", "m", "k", "g", true, false, "both", "", "", true⟩
      [⟨"user", "hi"⟩]
      (fun t => if t = "hi" then .success ⟨some "allow", none, none⟩
                else .success ⟨some "block", none, none⟩)
      (.ok ⟨some ⟨some "assistant", some "bad reply"⟩⟩)).reply =
      .ok ⟨some "assistant", some blockedReplyNotice⟩
        (some (apply_guardrails
          (assistantContentOf ⟨some ⟨some "assistant", some "bad reply"⟩⟩)
          "k" "g" false
          ((fun t => if t = "hi" then GuardResponse.success ⟨some "allow", none, none⟩
                     else .success ⟨some "block", none, none⟩)
            (assistantContentOf ⟨some ⟨some "assistant", some "bad reply"⟩⟩)))) ∧
    (chat ⟨"http://o", "m", "k", "g", true, false, "both", "", "", true⟩
      [⟨"user", "hi"⟩]
      (fun t => if t = "hi" then .success ⟨some "allow", none, none⟩
                else .success ⟨some "block", none, none⟩)
      (.ok ⟨some ⟨some "assistant", some "bad reply"⟩⟩)).ollamaCalls = 1 :=
  chat_assistant_malicious_replaced
    ⟨"http://o", "m", "k", "g", true, false, "both", "", "", true⟩
    [⟨"user", "hi"⟩]
    (fun t => if t = "hi" then .success ⟨some "allow", none, none⟩
              else .success ⟨some "block", none, none⟩)
    ⟨some ⟨some "assistant", some "bad reply"⟩⟩
    (by decide) (by decide) (by decide) rfl (by decide) (Or.inr rfl)
    (Or.inr (Or.inr (by decide))) (by decide) (by decide)

/-- Witness for C3: a response whose `decision` is empty and whose
`recommendation` is `"Review"` is judged non-malicious. -/
theorem guard_decision_matches_spec_wit :
    ((apply_guardrails "t" "k" "u" true
        (.success ⟨some "", none, some "Review"⟩)).effMalicious = true
       ↔ specGuardDecision ⟨some "", none, some "Review"⟩ = "block") ∧
    ((apply_guardrails "t" "k" "u" true
        (.success ⟨some "", none, some "Review"⟩)).allowed = true
       ↔ specGuardDecision ⟨some "", none, some "Review"⟩ ≠ "block") ∧
    (apply_guardrails "t" "k" "u" true
        (.success ⟨some "", none, some "Review"⟩)).is_malicious
       = some ((apply_guardrails "t" "k" "u" true
           (.success ⟨some "", none, some "Review"⟩)).effMalicious) :=
  guard_decision_matches_spec "t" "k" "u" true ⟨some "", none, some "Review"⟩
    (by decide) (by decide)

/-- The upload path's `malicious` derivation (if / elif) equals the spec's
disjunctive rule. -/
theorem uploadMaliciousFrom_eq_rule (r : V1fsResult) :
    uploadMaliciousFrom r = specScanMaliciousRule r := by
  unfold uploadMaliciousFrom specScanMaliciousRule
  split_ifs <;> simp_all

/-- C5 counterexample: an exception raised while reading the upload (before
the `try` block is entered) propagates out of the handler with the
temporary file still present — temporary storage is not absent after the
request completes. -/
theorem upload_tmpfile_removed_cex :
    (scan_uploaded_file "f.txt" "/tmp/up" [] (.error "client disconnected") (.ok ())
      none true "k" "r" true (.ok ⟨some (.num 0), none, none, false⟩)).1
      = .error "client disconnected" ∧
    (scan_uploaded_file "f.txt" "/tmp/up" [] (.error "client disconnected") (.ok ())
      none true "k" "r" true (.ok ⟨some (.num 0), none, none, false⟩)).2
      = ["/tmp/up"] := by decide

/-- C5 (amended): once the uploaded bytes have been persisted (read and
write succeeded), the temporary path is absent after the handler completes
on every exit path — success, scanner-error result, or any exception raised
inside the `try` block; an exception during the initial read or write,
before the `try` is entered, instead leaves the temporary file behind. -/
theorem upload_tmpfile_removed (filename tmpPath : String) (fs0 : List String)
    (bodyExc : Option String) (v1fsEnabled : Bool) (api_key region : String)
    (sdkAvailable : Bool) (outcome : ScanOutcome) :
    tmpPath ∉ (scan_uploaded_file filename tmpPath fs0 (.ok ()) (.ok ()) bodyExc
      v1fsEnabled api_key region sdkAvailable outcome).2 := by
  unfold scan_uploaded_file
  cases bodyExc with
  | some e => simp
  | none =>
    dsimp only
    split <;> simp

/-- C6 counterexample: a scanner result whose `foundMalwares` list is
non-empty but whose `scanResult` key is absent is judged malicious by the
upload endpoint yet non-malicious by the fixed-sample `test_eicar`
endpoint — the fixed-sample variants do not apply the same derivation
rule. -/
theorem scan_malicious_rule_cex :
    specScanMaliciousRule ⟨none, some (.arr ["Eicar_test"]), none, false⟩ = true ∧
    (scan_uploaded_file "f" "/t" [] (.ok ()) (.ok ()) none true "k" "r" true
      (.ok ⟨none, some (.arr ["Eicar_test"]), none, false⟩)).1
      = .ok ⟨"f", some ⟨none, some (.arr ["Eicar_test"]), none, false⟩, none, true⟩ ∧
    (test_eicar true "k" "r" true
      (.ok ⟨none, some (.arr ["Eicar_test"]), none, false⟩)).malicious = false := by
  decide

/-- C6 (amended): with the scanner enabled, configured and available, the
upload endpoint's malicious flag follows the spec's rule (scan-result field
present and truthy OR found-malware list present and non-empty), while the
two fixed-sample malware endpoints derive malicious from the scan-result
field alone (result truthy, scan-result present and truthy), ignoring
`foundMalwares`; the fixed-sample derivation implies the upload one. -/
theorem scan_malicious_rule (r : V1fsResult) (filename tmpPath : String)
    (fs0 : List String) (api_key region : String)
    (hkey : api_key ≠ "") (hreg : region ≠ "") :
    (scan_uploaded_file filename tmpPath fs0 (.ok ()) (.ok ()) none true
        api_key region true (.ok r)).1
      = .ok ⟨filename, some r, none, specScanMaliciousRule r⟩ ∧
    (test_eicar true api_key region true (.ok r)).malicious
      = (r.dictTruthy && (r.scanResult.isSome && (r.scanResult.getD .null).truthy)) ∧
    (test_hello true api_key region true (.ok r)).malicious
      = (r.dictTruthy && (r.scanResult.isSome && (r.scanResult.getD .null).truthy)) ∧
    ((test_eicar true api_key region true (.ok r)).malicious = true →
      specScanMaliciousRule r = true) := by
  have hscan : scan_file_v1fs tmpPath api_key region true (.ok r) = r := by
    unfold scan_file_v1fs
    rw [if_neg (by simp), if_neg (by simp [hkey, hreg])]
  have hscanE : scan_file_v1fs "eicar.txt" api_key region true (.ok r) = r := by
    unfold scan_file_v1fs
    rw [if_neg (by simp), if_neg (by simp [hkey, hreg])]
  have hscanH : scan_file_v1fs "hello.txt" api_key region true (.ok r) = r := by
    unfold scan_file_v1fs
    rw [if_neg (by simp), if_neg (by simp [hkey, hreg])]
  refine ⟨?_, ?_, ?_, ?_⟩
  · simp [scan_uploaded_file, hscan, uploadMaliciousFrom_eq_rule]
  · simp [test_eicar, hscanE, fixedSampleMalicious]
  · simp [test_hello, hscanH, fixedSampleMalicious]
  · intro h
    simp [test_eicar, hscanE, fixedSampleMalicious] at h
    simp [specScanMaliciousRule, h]

/-- Witness for C6 at a concrete malware hit (`scanResult = 1`). -/
theorem scan_malicious_rule_wit :
    (scan_uploaded_file "f" "/t" [] (.ok ()) (.ok ()) none true "k" "r" true
        (.ok ⟨some (.num 1), none, none, false⟩)).1
      = .ok ⟨"f", some ⟨some (.num 1), none, none, false⟩, none,
          specScanMaliciousRule ⟨some (.num 1), none, none, false⟩⟩ ∧
    (test_eicar true "k" "r" true (.ok ⟨some (.num 1), none, none, false⟩)).malicious
      = ((⟨some (.num 1), none, none, false⟩ : V1fsResult).dictTruthy &&
         ((⟨some (.num 1), none, none, false⟩ : V1fsResult).scanResult.isSome &&
          ((⟨some (.num 1), none, none, false⟩ : V1fsResult).scanResult.getD .null).truthy)) ∧
    (test_hello true "k" "r" true (.ok ⟨some (.num 1), none, none, false⟩)).malicious
      = ((⟨some (.num 1), none, none, false⟩ : V1fsResult).dictTruthy &&
         ((⟨some (.num 1), none, none, false⟩ : V1fsResult).scanResult.isSome &&
          ((⟨some (.num 1), none, none, false⟩ : V1fsResult).scanResult.getD .null).truthy)) ∧
    ((test_eicar true "k" "r" true (.ok ⟨some (.num 1), none, none, false⟩)).malicious = true →
      specScanMaliciousRule ⟨some (.num 1), none, none, false⟩ = true) :=
  scan_malicious_rule ⟨some (.num 1), none, none, false⟩ "f" "/t" [] "k" "r"
    (by decide) (by decide)

/-- Witness for C5 at a concrete successful scan. -/
theorem upload_tmpfile_removed_wit :
    "/tmp/up" ∉ (scan_uploaded_file "f.txt" "/tmp/up" [] (.ok ()) (.ok ()) none
      true "k" "r" true (.ok ⟨some (.num 1), none, none, false⟩)).2 :=
  upload_tmpfile_removed "f.txt" "/tmp/up" [] none true "k" "r" true
    (.ok ⟨some (.num 1), none, none, false⟩)
